import Mathlib

/-!
Verification of the MQTTSwitch firmware core (MQTTSwitch.ino and its
AP/web variant) against its natural-language specification.

The firmware is shallowly embedded: C byte strings are `List Nat`
(the bytes before the NUL terminator, all nonzero), 32-bit millisecond
timestamps are `Nat` values below `M32 = 2^32` with explicit wrapping
arithmetic, and each stateful routine becomes a pure function from its
inputs and prior state to its new state plus a record of its observable
side effects (pin writes, connection attempts, publishes).
-/

namespace MQTTSwitch

/-- Modulus of the 32-bit unsigned millisecond counter. -/
def M32 : Nat := 2 ^ 32

/-- Wrap-safe elapsed duration: the C expression `now - since` on
`unsigned long` (32-bit) values, i.e. wrapping subtraction mod 2^32. -/
def elapsed (now since : Nat) : Nat := (now + M32 - since) % M32

/-- Wrapping subtraction recovers the true elapsed duration modulo 2^32:
if the counter advanced by `d` ms from `since`, the current reading is
`(since + d) % M32` and `elapsed` returns `d % M32`. -/
theorem elapsed_add_mod (since d : Nat) (h : since < M32) :
    elapsed ((since + d) % M32) since = d % M32 := by
  unfold elapsed
  rw [Nat.add_sub_assoc (le_of_lt h), Nat.mod_add_mod]
  have hrw : since + d + (M32 - since) = d + M32 := by omega
  rw [hrw, Nat.add_mod_right]

/-- When the true elapsed duration is below 2^32, wrapping subtraction
recovers it exactly. -/
theorem elapsed_of_lt (since d : Nat) (h : since < M32) (hd : d < M32) :
    elapsed ((since + d) % M32) since = d := by
  rw [elapsed_add_mod since d h, Nat.mod_eq_of_lt hd]

/-- C2: for every pair of 32-bit timestamps, the wrapping subtraction
`elapsed now since` equals the true elapsed time modulo 2^32 (stated for
`now = (since + d) % 2^32` where `d` is the true elapsed time), it is
exact whenever the true elapsed time is below 2^32, and in particular
`elapsed 5 4294967295 = 6` across the counter wrap. -/
theorem C2_wrap_safe_elapsed (since d : Nat) (h : since < M32) :
    elapsed ((since + d) % M32) since = d % M32 ∧
    (d < M32 → elapsed ((since + d) % M32) since = d) ∧
    elapsed 5 4294967295 = 6 := by
  refine ⟨elapsed_add_mod since d h, fun hd => elapsed_of_lt since d h hd, by decide⟩

/-- Witness for C2 at the wrap case of the spec: since = 4294967295,
true elapsed d = 6, so now = 5. -/
theorem C2_wrap_safe_elapsed_witness :
    4294967295 < M32 ∧
    (elapsed ((4294967295 + 6) % M32) 4294967295 = 6 % M32 ∧
     (6 < M32 → elapsed ((4294967295 + 6) % M32) 4294967295 = 6) ∧
     elapsed 5 4294967295 = 6) :=
  ⟨by decide, C2_wrap_safe_elapsed 4294967295 6 (by decide)⟩

/-- Debounce threshold in milliseconds (DEBOUNCE_MILLIS in the source). -/
def DEBOUNCE_MILLIS : Nat := 50

/-- State touched by the button interrupt handler: the handler's static
locals, the two shared flags, the relay output line, and a count of the
digitalWrite calls the handler performs on the relay pin. -/
structure ISRState where
  button_press : Bool
  button_press_millis : Nat
  power_enable : Bool
  bluetooth_enable : Bool
  power_pin : Bool
  relay_writes : Nat
deriving DecidableEq, Repr

/-- ButtonChangeISR from the source: on a LOW reading record the press
start; on a HIGH reading after a recorded press, classify the hold
duration (computed with wrapping subtraction) — at least 5000 ms toggles
the Bluetooth/console flag, at least DEBOUNCE_MILLIS toggles the power
flag and writes the relay pin inside the handler, shorter holds are
debounce noise. -/
def ButtonChangeISR (s : ISRState) (now : Nat) (buttonLow : Bool) : ISRState :=
  if buttonLow then
    if s.button_press = false then
      { s with button_press := true, button_press_millis := now }
    else s
  else
    if s.button_press then
      let hold_millis := elapsed now s.button_press_millis
      if 5000 ≤ hold_millis then
        { s with button_press := false,
                 bluetooth_enable := !s.bluetooth_enable }
      else if DEBOUNCE_MILLIS ≤ hold_millis then
        { s with button_press := false,
                 power_enable := !s.power_enable,
                 power_pin := !s.power_enable,
                 relay_writes := s.relay_writes + 1 }
      else
        { s with button_press := false }
    else s

/-- A full press-release cycle: the falling-edge interrupt at `t0`
followed by the rising-edge interrupt at `t1`. -/
def buttonCycle (s : ISRState) (t0 t1 : Nat) : ISRState :=
  ButtonChangeISR (ButtonChangeISR s t0 true) t1 false

/-- C1: for a press at `t0` held for `d` ms (release edge at
`(t0 + d) % 2^32`): below 50 ms neither flag changes; between 50 and
4999 ms the power flag is toggled exactly once and the relay pin is
written inside the handler while the Bluetooth/console flag is
unchanged; at 5000 ms or more the Bluetooth/console flag is toggled
exactly once while the power flag and relay pin are unchanged. -/
theorem C1_button_cycle (s : ISRState) (t0 d : Nat)
    (h0 : s.button_press = false) (ht : t0 < M32) (hd : d < M32) :
    (d < 50 →
      buttonCycle s t0 ((t0 + d) % M32)
        = { s with button_press := false, button_press_millis := t0 }) ∧
    (50 ≤ d → d < 5000 →
      buttonCycle s t0 ((t0 + d) % M32)
        = { s with button_press := false, button_press_millis := t0,
                   power_enable := !s.power_enable,
                   power_pin := !s.power_enable,
                   relay_writes := s.relay_writes + 1 }) ∧
    (5000 ≤ d →
      buttonCycle s t0 ((t0 + d) % M32)
        = { s with button_press := false, button_press_millis := t0,
                   bluetooth_enable := !s.bluetooth_enable }) := by
  have hpress : ButtonChangeISR s t0 true
      = { s with button_press := true, button_press_millis := t0 } := by
    simp [ButtonChangeISR, h0]
  have hhold : elapsed ((t0 + d) % M32) t0 = d := elapsed_of_lt t0 d ht hd
  unfold buttonCycle
  rw [hpress]
  refine ⟨fun h1 => ?_, fun h1 h2 => ?_, fun h1 => ?_⟩
  · have ha : ¬ 5000 ≤ d := by omega
    have hb : ¬ DEBOUNCE_MILLIS ≤ d := by unfold DEBOUNCE_MILLIS; omega
    simp [ButtonChangeISR, hhold, ha, hb]
  · have ha : ¬ 5000 ≤ d := by omega
    have hb : DEBOUNCE_MILLIS ≤ d := by unfold DEBOUNCE_MILLIS; omega
    simp [ButtonChangeISR, hhold, ha, hb]
  · simp [ButtonChangeISR, hhold, h1]

/-- Witness for C1: a press at 100 ms released 600 ms later toggles the
power flag and writes the relay pin. -/
theorem C1_button_cycle_witness :
    (50 ≤ 600 ∧ (600 : Nat) < 5000) ∧
    buttonCycle ⟨false, 0, false, false, false, 0⟩ 100 ((100 + 600) % M32)
      = ⟨false, 100, true, false, true, 1⟩ := by
  refine ⟨by decide, ?_⟩
  exact (C1_button_cycle ⟨false, 0, false, false, false, 0⟩ 100 600
    rfl (by decide) (by decide)).2.1 (by decide) (by decide)

/-- Console-gate idle-timeout check from the basic variant's loop
(MQTTSwitch.ino): while Bluetooth is enabled and no client is attached,
disable it once 600000 ms have elapsed since `bluetooth_enable_millis`
— the time Bluetooth was ENABLED. Returns the new bluetooth_enable. -/
def bluetoothTimeoutStep (bluetooth_enable bluetooth_has_client : Bool)
    (now bluetooth_enable_millis : Nat) : Bool :=
  if bluetooth_enable then
    if bluetooth_has_client = false ∧ 600000 ≤ elapsed now bluetooth_enable_millis
    then false
    else bluetooth_enable
  else bluetooth_enable

/-- Console-gate idle-timeout check from the AP/web variant's loop
(part_000): while config mode is enabled and no client is attached,
disable it once 600000 ms have elapsed since
`bluetooth_disconnected_millis` — the last client disconnect time.
Returns the new config_enable. -/
def configTimeoutStep (config_enable bluetooth_has_client : Bool)
    (now bluetooth_disconnected_millis : Nat) : Bool :=
  if config_enable then
    if bluetooth_has_client = false ∧ 600000 ≤ elapsed now bluetooth_disconnected_millis
    then false
    else config_enable
  else config_enable

/-- C3 counterexample: in the basic variant the timeout reference is the
time Bluetooth was enabled, not the last client disconnect. Bluetooth
enabled at 0 ms, last client disconnect at 500000 ms, loop at 600000 ms:
only 100000 ms have elapsed since the last disconnect, yet the gate
clears because 600000 ms have elapsed since enable. -/
theorem C3_counterexample :
    bluetoothTimeoutStep true false 600000 0 = false ∧
    elapsed 600000 500000 < 600000 := by decide

/-- C3 as amended: in the basic variant the gate (while active) clears
exactly when 600000 ms have elapsed since Bluetooth was enabled with no
client attached; in the AP/web variant it clears exactly when 600000 ms
have elapsed since the last client disconnect with no client attached.
In both, it clears at an elapsed time of 600000 and not at 599999. -/
theorem C3_gate_timeout (hc : Bool) (now r : Nat) :
    (bluetoothTimeoutStep true hc now r = false ↔
      (hc = false ∧ 600000 ≤ elapsed now r)) ∧
    (configTimeoutStep true hc now r = false ↔
      (hc = false ∧ 600000 ≤ elapsed now r)) ∧
    configTimeoutStep true false 600000 0 = false ∧
    configTimeoutStep true false 599999 0 = true ∧
    bluetoothTimeoutStep true false 600000 0 = false ∧
    bluetoothTimeoutStep true false 599999 0 = true := by
  refine ⟨?_, ?_, by decide, by decide, by decide, by decide⟩ <;>
  · simp only [bluetoothTimeoutStep, configTimeoutStep, if_true]
    split <;> simp_all

/-- WiFi status constant WL_CONNECTED from the WiFi library. -/
def WL_CONNECTED : Nat := 3

/-- WiFi status constant WL_NO_SHIELD (initial value of last_status). -/
def WL_NO_SHIELD : Nat := 255

/-- WiFi status constant WL_DISCONNECTED. -/
def WL_DISCONNECTED : Nat := 6

/-- MQTT state constant MQTT_CONNECTED from PubSubClient. -/
def MQTT_CONNECTED : Int := 0

/-- MQTT state constant MQTT_DISCONNECTED from PubSubClient. -/
def MQTT_DISCONNECTED : Int := -1

/-- Result of one EnsureWiFi call: its return value, the static
diagnostic last_status, the retry timestamp wifi_last_try, and how many
WiFi.begin connection attempts the call issued. -/
structure EnsureWiFiResult where
  connected : Bool
  last_status : Nat
  wifi_last_try : Nat
  begin_calls : Nat
deriving DecidableEq, Repr

/-- EnsureWiFi from the source: record status changes for diagnostics,
return true if connected, false if no SSID is configured, otherwise
start a fresh connection attempt only when wifi_last_try is the 0
sentinel or at least 60000 ms have elapsed since it. -/
def EnsureWiFi (status last_status : Nat) (wifi_ssid : List Nat)
    (wifi_last_try now : Nat) : EnsureWiFiResult :=
  let ls := if status ≠ last_status then status else last_status
  if status = WL_CONNECTED then ⟨true, ls, wifi_last_try, 0⟩
  else if wifi_ssid.length = 0 then ⟨false, ls, wifi_last_try, 0⟩
  else if wifi_last_try = 0 ∨ 60000 ≤ elapsed now wifi_last_try then
    ⟨false, ls, now, 1⟩
  else ⟨false, ls, wifi_last_try, 0⟩

/-- A retained publish to the message bus. -/
structure Publish where
  topic : List Nat
  payload : List Nat
  retained : Bool
deriving DecidableEq, Repr

/-- The byte string "ON". -/
def strON : List Nat := [79, 78]

/-- The byte string "OFF". -/
def strOFF : List Nat := [79, 70, 70]

/-- PublishStatus from the source: if a status topic is configured,
publish the retained current power state as "ON" or "OFF". Returns the
list of publishes performed. -/
def PublishStatus (mqtt_status_topic : List Nat) (power_enable : Bool) :
    List Publish :=
  if 0 < mqtt_status_topic.length then
    [⟨mqtt_status_topic, if power_enable then strON else strOFF, true⟩]
  else []

/-- Result of one EnsureMQTT call: its return value, the diagnostic
last_state, the retry timestamp, the status publishes performed, and how
many connect and subscribe calls were issued. -/
structure EnsureMQTTResult where
  connected : Bool
  last_state : Int
  mqtt_last_try : Nat
  publishes : List Publish
  connect_attempts : Nat
  subscribe_calls : Nat
deriving DecidableEq, Repr

/-- EnsureMQTT from the source: record state changes for diagnostics and
republish the retained status on the transition into connected; return
true if connected, false if no server is configured; otherwise attempt a
connection (with last-will "OFFLINE" on the status topic) only when
mqtt_last_try is the 0 sentinel or at least 60000 ms have elapsed since
it, subscribing to the control topic on success; `connect_success`
stands for the transport's answer to that connect call. -/
def EnsureMQTT (state last_state : Int) (mqtt_last_try now : Nat)
    (mqtt_server mqtt_status_topic mqtt_control_topic : List Nat)
    (power_enable connect_success : Bool) : EnsureMQTTResult :=
  let pubs := if state ≠ last_state ∧ state = MQTT_CONNECTED
              then PublishStatus mqtt_status_topic power_enable else []
  let ls := if state ≠ last_state then state else last_state
  if state = MQTT_CONNECTED then ⟨true, ls, mqtt_last_try, pubs, 0, 0⟩
  else if mqtt_server.length = 0 then ⟨false, ls, mqtt_last_try, pubs, 0, 0⟩
  else if mqtt_last_try = 0 ∨ 60000 ≤ elapsed now mqtt_last_try then
    ⟨connect_success, ls, now, pubs, 1,
     if connect_success ∧ 0 < mqtt_control_topic.length then 1 else 0⟩
  else ⟨false, ls, mqtt_last_try, pubs, 0, 0⟩

/-- Status publishes of one main-loop iteration: those performed inside
EnsureMQTT (only reached when WiFi is up) plus the one performed by the
power-state edge reconciliation at the bottom of the loop. -/
def loopStatusPublishes (wifi_up : Bool) (state last_state : Int)
    (mqtt_last_try now : Nat)
    (mqtt_server mqtt_status_topic mqtt_control_topic : List Nat)
    (power_enable last_power_enable connect_success : Bool) : List Publish :=
  (if wifi_up then
    (EnsureMQTT state last_state mqtt_last_try now mqtt_server
      mqtt_status_topic mqtt_control_topic power_enable
      connect_success).publishes
   else [])
  ++ (if power_enable ≠ last_power_enable then
        PublishStatus mqtt_status_topic power_enable else [])

/-- C4: on the call observing the transition of the bus link into the
connected state, the configured status topic receives exactly one
retained publish carrying the current power state ("ON" or "OFF"); and a
loop iteration in which neither the observed link state nor the power
state changed performs no status publish at all. -/
theorem C4_reconnect_republish (state last_state : Int)
    (mqtt_last_try now : Nat)
    (mqtt_server mqtt_status_topic mqtt_control_topic : List Nat)
    (power_enable last_power_enable connect_success wifi_up : Bool) :
    (state = MQTT_CONNECTED → last_state ≠ MQTT_CONNECTED →
      0 < mqtt_status_topic.length →
      (EnsureMQTT state last_state mqtt_last_try now mqtt_server
        mqtt_status_topic mqtt_control_topic power_enable
        connect_success).publishes
        = [⟨mqtt_status_topic, if power_enable then strON else strOFF, true⟩]) ∧
    (state = last_state → power_enable = last_power_enable →
      loopStatusPublishes wifi_up state last_state mqtt_last_try now
        mqtt_server mqtt_status_topic mqtt_control_topic power_enable
        last_power_enable connect_success = []) := by
  constructor
  · intro h1 h2 h3
    subst h1
    have hne : ¬ (MQTT_CONNECTED = last_state) := fun hx => h2 hx.symm
    simp [EnsureMQTT, hne, PublishStatus, h3]
  · intro h1 h2
    have hpubs : (EnsureMQTT state last_state mqtt_last_try now mqtt_server
        mqtt_status_topic mqtt_control_topic power_enable
        connect_success).publishes = [] := by
      simp only [EnsureMQTT, h1]
      split_ifs <;> simp_all
    unfold loopStatusPublishes
    rw [hpubs]
    simp [h2]

/-- Witness for C4: a transition from DISCONNECTED into CONNECTED with
power on republishes exactly "ON" retained; an iteration with no link
state change and no power change publishes nothing. -/
theorem C4_reconnect_republish_witness :
    (EnsureMQTT MQTT_CONNECTED MQTT_DISCONNECTED 0 0 [104] [116] []
      true true).publishes = [⟨[116], strON, true⟩] ∧
    loopStatusPublishes true MQTT_CONNECTED MQTT_CONNECTED 0 0 [104] [116] []
      true true true = [] := by
  constructor
  · have h := C4_reconnect_republish MQTT_CONNECTED MQTT_DISCONNECTED 0 0
      [104] [116] [] true true true true
    exact h.1 rfl (by decide) (by decide)
  · have h := C4_reconnect_republish MQTT_CONNECTED MQTT_CONNECTED 0 0
      [104] [116] [] true true true true
    exact h.2 rfl rfl

/-- C6: for each link supervisor, while the link is down and an endpoint
is configured, a call within 60000 ms of a recorded attempt issues no
new attempt and leaves everything but the status diagnostic unchanged,
while a call with the 0 sentinel or at least 60000 ms elapsed issues
exactly one attempt and records the attempt time. -/
theorem C6_retry_window (status last_status : Nat) (wifi_ssid : List Nat)
    (wlt now : Nat) (state last_state : Int)
    (mqtt_server mqtt_status_topic mqtt_control_topic : List Nat)
    (mlt : Nat) (power_enable connect_success : Bool) :
    (status ≠ WL_CONNECTED → wifi_ssid ≠ [] → wlt ≠ 0 →
      elapsed now wlt < 60000 →
      EnsureWiFi status last_status wifi_ssid wlt now
        = ⟨false, if status ≠ last_status then status else last_status,
           wlt, 0⟩) ∧
    (status ≠ WL_CONNECTED → wifi_ssid ≠ [] →
      (wlt = 0 ∨ 60000 ≤ elapsed now wlt) →
      EnsureWiFi status last_status wifi_ssid wlt now
        = ⟨false, if status ≠ last_status then status else last_status,
           now, 1⟩) ∧
    (state ≠ MQTT_CONNECTED → mqtt_server ≠ [] → mlt ≠ 0 →
      elapsed now mlt < 60000 →
      EnsureMQTT state last_state mlt now mqtt_server mqtt_status_topic
        mqtt_control_topic power_enable connect_success
        = ⟨false, if state ≠ last_state then state else last_state,
           mlt, [], 0, 0⟩) ∧
    (state ≠ MQTT_CONNECTED → mqtt_server ≠ [] →
      (mlt = 0 ∨ 60000 ≤ elapsed now mlt) →
      EnsureMQTT state last_state mlt now mqtt_server mqtt_status_topic
        mqtt_control_topic power_enable connect_success
        = ⟨connect_success,
           if state ≠ last_state then state else last_state, now, [], 1,
           if connect_success ∧ 0 < mqtt_control_topic.length then 1
           else 0⟩) := by
  have hssid : ∀ h : wifi_ssid ≠ [], ¬ wifi_ssid.length = 0 := by
    simp [List.length_eq_zero]
  have hsrv : ∀ h : mqtt_server ≠ [], ¬ mqtt_server.length = 0 := by
    simp [List.length_eq_zero]
  refine ⟨fun h1 h2 h3 h4 => ?_, fun h1 h2 h3 => ?_,
          fun h1 h2 h3 h4 => ?_, fun h1 h2 h3 => ?_⟩
  · have hgate : ¬ (wlt = 0 ∨ 60000 ≤ elapsed now wlt) := by omega
    simp [EnsureWiFi, h1, hssid h2, hgate]
  · simp [EnsureWiFi, h1, hssid h2, h3]
  · have hgate : ¬ (mlt = 0 ∨ 60000 ≤ elapsed now mlt) := by omega
    have hpub : ¬ (state ≠ last_state ∧ state = MQTT_CONNECTED) :=
      fun h => h1 h.2
    simp [EnsureMQTT, h1, hsrv h2, hgate, hpub]
  · have hpub : ¬ (state ≠ last_state ∧ state = MQTT_CONNECTED) :=
      fun h => h1 h.2
    simp [EnsureMQTT, h1, hsrv h2, h3, hpub]

/-- Witness for C6: WiFi down (DISCONNECTED), SSID configured. A call
30000 ms after an attempt recorded at 100 ms does nothing; a call 60000
ms after it attempts once; same for the bus supervisor. -/
theorem C6_retry_window_witness :
    EnsureWiFi WL_DISCONNECTED WL_DISCONNECTED [110] 100 30100
      = ⟨false, WL_DISCONNECTED, 100, 0⟩ ∧
    EnsureWiFi WL_DISCONNECTED WL_DISCONNECTED [110] 100 60100
      = ⟨false, WL_DISCONNECTED, 60100, 1⟩ ∧
    EnsureMQTT MQTT_DISCONNECTED MQTT_DISCONNECTED 100 30100 [104] [116] [99]
      true true = ⟨false, MQTT_DISCONNECTED, 100, [], 0, 0⟩ ∧
    EnsureMQTT MQTT_DISCONNECTED MQTT_DISCONNECTED 100 60100 [104] [116] [99]
      true true = ⟨true, MQTT_DISCONNECTED, 60100, [], 1, 1⟩ := by
  have h30 := C6_retry_window WL_DISCONNECTED WL_DISCONNECTED [110] 100 30100
    MQTT_DISCONNECTED MQTT_DISCONNECTED [104] [116] [99] 100 true true
  have h60 := C6_retry_window WL_DISCONNECTED WL_DISCONNECTED [110] 100 60100
    MQTT_DISCONNECTED MQTT_DISCONNECTED [104] [116] [99] 100 true true
  refine ⟨?_, ?_, ?_, ?_⟩
  · have := h30.1 (by decide) (by decide) (by decide) (by decide)
    simpa using this
  · have := h60.2.1 (by decide) (by decide) (Or.inr (by decide))
    simpa using this
  · have := h30.2.2.1 (by decide) (by decide) (by decide) (by decide)
    simpa using this
  · have := h60.2.2.2 (by decide) (by decide) (Or.inr (by decide))
    simpa using this

/-- C7 counterexample: the claim also asserts that all other supervisor
state is unchanged, but the status-change diagnostic memo is updated on
every call, including calls with no endpoint configured. With the
current status DISCONNECTED, the remembered status NO_SHIELD and no SSID
configured, the call returns false, starts no attempt and keeps
wifi_last_try, yet last_status changes from 255 to 6. -/
theorem C7_counterexample :
    (EnsureWiFi WL_DISCONNECTED WL_NO_SHIELD [] 7 100).connected = false ∧
    (EnsureWiFi WL_DISCONNECTED WL_NO_SHIELD [] 7 100).begin_calls = 0 ∧
    (EnsureWiFi WL_DISCONNECTED WL_NO_SHIELD [] 7 100).wifi_last_try = 7 ∧
    (EnsureWiFi WL_DISCONNECTED WL_NO_SHIELD [] 7 100).last_status ≠
      WL_NO_SHIELD := by decide

/-- C7 as amended: a supervisor call with no endpoint configured and the
link not connected returns false, starts no connection attempt (and, for
the bus, performs no publish and no subscribe), and leaves the retry
timestamp unchanged; the only state it may update is the last-observed
status diagnostic, which is set to the currently observed status. -/
theorem C7_no_endpoint (status last_status : Nat) (wlt now : Nat)
    (state last_state : Int) (mqtt_status_topic mqtt_control_topic : List Nat)
    (mlt : Nat) (power_enable connect_success : Bool) :
    (status ≠ WL_CONNECTED →
      EnsureWiFi status last_status [] wlt now
        = ⟨false, if status ≠ last_status then status else last_status,
           wlt, 0⟩) ∧
    (state ≠ MQTT_CONNECTED →
      EnsureMQTT state last_state mlt now [] mqtt_status_topic
        mqtt_control_topic power_enable connect_success
        = ⟨false, if state ≠ last_state then state else last_state,
           mlt, [], 0, 0⟩) := by
  constructor
  · intro h1
    simp [EnsureWiFi, h1]
  · intro h1
    have hpub : ¬ (state ≠ last_state ∧ state = MQTT_CONNECTED) :=
      fun h => h1 h.2
    simp [EnsureMQTT, h1, hpub]

/-- Witness for C7 as amended, at the counterexample's inputs. -/
theorem C7_no_endpoint_witness :
    EnsureWiFi WL_DISCONNECTED WL_NO_SHIELD [] 7 100
      = ⟨false, WL_DISCONNECTED, 7, 0⟩ ∧
    EnsureMQTT MQTT_DISCONNECTED (-3) 7 100 [] [116] [99] true true
      = ⟨false, MQTT_DISCONNECTED, 7, [], 0, 0⟩ := by
  have h := C7_no_endpoint WL_DISCONNECTED WL_NO_SHIELD 7 100
    MQTT_DISCONNECTED (-3) [116] [99] 7 true true
  constructor
  · have := h.1 (by decide)
    simpa using this
  · have := h.2 (by decide)
    simpa using this

/-- ASCII tolower on a byte, as used by strcasecmp. -/
def toLowerByte (c : Nat) : Nat := if 65 ≤ c ∧ c ≤ 90 then c + 32 else c

/-- strcasecmp(a, b) == 0 for NUL-free C strings: equality after
lowercasing every byte. -/
def strcasecmpEq (a b : List Nat) : Bool :=
  a.map toLowerByte == b.map toLowerByte

/-- strncmp(a, b, n) == 0 for C strings given as their pre-NUL bytes:
compare byte by byte for at most n positions; running off the end of a
list is the NUL terminator, so lists of different lengths differ at the
shorter one's terminator. -/
def strncmpEq : Nat → List Nat → List Nat → Bool
  | 0, _, _ => true
  | _ + 1, [], [] => true
  | _ + 1, [], _ :: _ => false
  | _ + 1, _ :: _, [] => false
  | n + 1, a :: as, b :: bs => a == b && strncmpEq n as bs

/-- When the second string is shorter than the byte budget, strncmp
equality is exactly string equality. -/
theorem strncmpEq_iff (b : List Nat) : ∀ (n : Nat) (a : List Nat),
    b.length < n → (strncmpEq n a b = true ↔ a = b) := by
  induction b with
  | nil =>
    intro n a h
    match n, a with
    | m + 1, [] => simp [strncmpEq]
    | m + 1, x :: xs => simp [strncmpEq]
  | cons y bs ih =>
    intro n a h
    match n, a with
    | m + 1, [] => simp [strncmpEq]
    | m + 1, x :: xs =>
      have hm : bs.length < m := by simp at h; omega
      simp [strncmpEq, ih m xs hm]

/-- The byte string "on". -/
def tokOn : List Nat := [111, 110]

/-- The byte string "true". -/
def tokTrue : List Nat := [116, 114, 117, 101]

/-- The byte string "1". -/
def tokOne : List Nat := [49]

/-- The byte string "off". -/
def tokOff : List Nat := [111, 102, 102]

/-- The byte string "false". -/
def tokFalse : List Nat := [102, 97, 108, 115, 101]

/-- The byte string "0". -/
def tokZero : List Nat := [48]

/-- The C string held in the callback's str buffer: char str[8] zeroed,
then memcpy of min(length, 7) payload bytes — i.e. the payload's first
7 bytes up to the first NUL byte among them. -/
def payloadToken (payload : List Nat) : List Nat :=
  (payload.take 7).takeWhile (fun c => c != 0)

/-- MQTTCallback from the source: if the topic strncmp-matches the
configured control topic over sizeof(mqtt_control_topic) = 32 bytes,
decode the truncated payload — "on"/"true" case-insensitively or "1"
exactly switch power on, "off"/"false" case-insensitively or "0" exactly
switch it off, anything else leaves power unchanged. Returns the new
power_enable. -/
def MQTTCallback (mqtt_control_topic topic payload : List Nat)
    (power_enable : Bool) : Bool :=
  if strncmpEq 32 topic mqtt_control_topic then
    let str := payloadToken payload
    if strcasecmpEq str tokOn || strcasecmpEq str tokTrue || str == tokOne
    then true
    else if strcasecmpEq str tokOff || strcasecmpEq str tokFalse
            || str == tokZero
    then false
    else power_enable
  else power_enable


/-- Case-insensitive comparison against the one-byte string "1"
coincides with exact comparison (no letter lowercases to a digit). -/
theorem strcasecmpEq_tokOne (s : List Nat) :
    strcasecmpEq s tokOne = (s == tokOne) := by
  match s with
  | [] => simp [strcasecmpEq, tokOne]
  | [a] =>
    simp only [strcasecmpEq, tokOne, List.map, beq_iff_eq, List.cons.injEq,
      and_true, toLowerByte]
    by_cases h : 65 ≤ a ∧ a ≤ 90
    · have h1 : ¬ (a + 32 = 49) := by omega
      have h2 : ¬ (a = 49) := by omega
      simp [h, h1, h2]; omega
    · simp [h]
  | a :: b :: t => simp [strcasecmpEq, tokOne]

/-- Case-insensitive comparison against the one-byte string "0"
coincides with exact comparison. -/
theorem strcasecmpEq_tokZero (s : List Nat) :
    strcasecmpEq s tokZero = (s == tokZero) := by
  match s with
  | [] => simp [strcasecmpEq, tokZero]
  | [a] =>
    simp only [strcasecmpEq, tokZero, List.map, beq_iff_eq, List.cons.injEq,
      and_true, toLowerByte]
    by_cases h : 65 ≤ a ∧ a ≤ 90
    · have h1 : ¬ (a + 32 = 48) := by omega
      have h2 : ¬ (a = 48) := by omega
      simp [h, h1, h2]; omega
    · simp [h]
  | a :: b :: t => simp [strcasecmpEq, tokZero]

/-- A string recognised as an off-token ("off", "false" or "0") is never
also recognised as an on-token ("on", "true" or "1"). -/
theorem offTokens_not_onTokens (s : List Nat)
    (h : (strcasecmpEq s tokOff || strcasecmpEq s tokFalse
          || s == tokZero) = true) :
    (strcasecmpEq s tokOn || strcasecmpEq s tokTrue || s == tokOne)
      = false := by
  simp only [strcasecmpEq, Bool.or_eq_true, beq_iff_eq] at h
  simp only [strcasecmpEq, Bool.or_eq_false_iff, beq_eq_false_iff_ne, ne_eq]
  rcases h with (h | h) | h
  · exact ⟨⟨by rw [h]; decide, by rw [h]; decide⟩,
      fun hs => by rw [hs] at h; exact absurd h (by decide)⟩
  · exact ⟨⟨by rw [h]; decide, by rw [h]; decide⟩,
      fun hs => by rw [hs] at h; exact absurd h (by decide)⟩
  · subst h
    refine ⟨⟨by decide, by decide⟩, by decide⟩

/-- C5: provided the stored control topic fits its 32-byte field (length
at most 31), a message on a topic other than the control topic leaves
power unchanged; on the control topic the payload is truncated to its
first 7 bytes and compared case-insensitively — "on", "true" or "1"
switch power on, "off", "false" or "0" switch it off, and any other
payload leaves power unchanged. -/
theorem C5_decode (mqtt_control_topic topic payload : List Nat)
    (power_enable : Bool) (hct : mqtt_control_topic.length < 32) :
    (topic ≠ mqtt_control_topic →
      MQTTCallback mqtt_control_topic topic payload power_enable
        = power_enable) ∧
    (topic = mqtt_control_topic →
      ((strcasecmpEq (payloadToken payload) tokOn
        || strcasecmpEq (payloadToken payload) tokTrue
        || strcasecmpEq (payloadToken payload) tokOne) = true →
        MQTTCallback mqtt_control_topic topic payload power_enable = true) ∧
      ((strcasecmpEq (payloadToken payload) tokOff
        || strcasecmpEq (payloadToken payload) tokFalse
        || strcasecmpEq (payloadToken payload) tokZero) = true →
        MQTTCallback mqtt_control_topic topic payload power_enable = false) ∧
      ((strcasecmpEq (payloadToken payload) tokOn
        || strcasecmpEq (payloadToken payload) tokTrue
        || strcasecmpEq (payloadToken payload) tokOne) = false →
       (strcasecmpEq (payloadToken payload) tokOff
        || strcasecmpEq (payloadToken payload) tokFalse
        || strcasecmpEq (payloadToken payload) tokZero) = false →
        MQTTCallback mqtt_control_topic topic payload power_enable
          = power_enable)) := by
  have hmatch : strncmpEq 32 topic mqtt_control_topic = true ↔
      topic = mqtt_control_topic :=
    strncmpEq_iff mqtt_control_topic 32 topic hct
  constructor
  · intro hne
    have hnm : ¬ strncmpEq 32 topic mqtt_control_topic = true := fun h =>
      hne (hmatch.mp h)
    simp [MQTTCallback, hnm]
  · intro heq
    have hm : strncmpEq 32 topic mqtt_control_topic = true := hmatch.mpr heq
    refine ⟨fun hon => ?_, fun hoff => ?_, fun hon hoff => ?_⟩
    · rw [strcasecmpEq_tokOne] at hon
      simp only [Bool.or_eq_true] at hon
      rcases hon with (h | h) | h <;> simp [MQTTCallback, hm, h]
    · rw [strcasecmpEq_tokZero] at hoff
      have hA := offTokens_not_onTokens (payloadToken payload) hoff
      simp only [Bool.or_eq_false_iff] at hA
      simp only [Bool.or_eq_true] at hoff
      rcases hoff with (h | h) | h <;>
        simp [MQTTCallback, hm, hA.1.1, hA.1.2, hA.2, h]
    · rw [strcasecmpEq_tokOne] at hon
      rw [strcasecmpEq_tokZero] at hoff
      simp only [Bool.or_eq_false_iff] at hon hoff
      simp [MQTTCallback, hm, hon.1.1, hon.1.2, hon.2,
        hoff.1.1, hoff.1.2, hoff.2]

/-- Witness for C5: with control topic "c" (one byte, fits the field),
an uppercase payload "ON" on the matching topic switches power on, and
the same payload on topic "d" leaves power off. -/
theorem C5_decode_witness :
    MQTTCallback [99] [99] [79, 78] false = true ∧
    MQTTCallback [99] [100] [79, 78] false = false := by
  constructor
  · exact ((C5_decode [99] [99] [79, 78] false (by decide)).2 rfl).1 (by decide)
  · exact (C5_decode [99] [100] [79, 78] false (by decide)).1 (by decide)

/-- Result of one SettingsReadWriteHelper call: the settings field after
the call, the value echoed back by the read form (if any), and the
"settings were changed" return value. -/
structure RWResult where
  value : List Nat
  readback : Option (List Nat)
  changed : Bool
deriving DecidableEq, Repr

/-- SettingsReadWriteHelper from the source: with a new value, zero the
field, then unless the value is the token "-" strncpy at most size-1
bytes of it into the field, and report a change; with no new value, echo
the current field. -/
def SettingsReadWriteHelper (settings_value : List Nat) (size : Nat)
    (new_value : Option (List Nat)) : RWResult :=
  match new_value with
  | some nv =>
    if nv == [45] then ⟨[], none, true⟩
    else ⟨nv.take (size - 1), none, true⟩
  | none => ⟨settings_value, some settings_value, false⟩

/-- C8 counterexample: a 16-byte value written into a 16-byte field
(e.g. mqtt_server) reads back truncated to 15 bytes, not as written. -/
theorem C8_counterexample :
    (SettingsReadWriteHelper
      (SettingsReadWriteHelper [] 16 (some (List.replicate 16 97))).value
      16 none).readback ≠ some (List.replicate 16 97) ∧
    (SettingsReadWriteHelper
      (SettingsReadWriteHelper [] 16 (some (List.replicate 16 97))).value
      16 none).readback = some (List.replicate 15 97) := by decide

/-- C8 as amended: writing a value whose length is at most size-1 (the
field capacity minus the NUL terminator) then reading the field back
yields exactly the written value; longer values read back truncated to
their first size-1 bytes; writing the token "-" reads back empty. -/
theorem C8_roundtrip (old v : List Nat) (size : Nat) :
    (v ≠ [45] → v.length ≤ size - 1 →
      (SettingsReadWriteHelper
        (SettingsReadWriteHelper old size (some v)).value size none).readback
        = some v) ∧
    (v ≠ [45] →
      (SettingsReadWriteHelper
        (SettingsReadWriteHelper old size (some v)).value size none).readback
        = some (v.take (size - 1))) ∧
    (SettingsReadWriteHelper
      (SettingsReadWriteHelper old size (some [45])).value size none).readback
      = some [] := by
  refine ⟨fun h1 h2 => ?_, fun h1 => ?_, by simp [SettingsReadWriteHelper]⟩
  · have hb : (v == [45]) = false := by simp [h1]
    simp [SettingsReadWriteHelper, hb, List.take_of_length_le h2]
  · have hb : (v == [45]) = false := by simp [h1]
    simp [SettingsReadWriteHelper, hb]

/-- Witness for C8 as amended: writing "hi" into a 16-byte field reads
back "hi". -/
theorem C8_roundtrip_witness :
    (SettingsReadWriteHelper
      (SettingsReadWriteHelper [] 16 (some [104, 105])).value 16
      none).readback = some [104, 105] :=
  (C8_roundtrip [] [104, 105] 16).1 (by decide) (by decide)

/-- The settings magic/header byte SETTINGS_HEADER (0xD2 in the basic
variant). -/
def SETTINGS_HEADER : Nat := 0xD2

/-- The persistent Settings record from the source, with C strings as
their pre-NUL bytes. -/
structure Settings where
  header : Nat
  device_name : List Nat
  wifi_ssid : List Nat
  wifi_password : List Nat
  mqtt_server : List Nat
  mqtt_port : Nat
  mqtt_id : List Nat
  mqtt_user : List Nat
  mqtt_password : List Nat
  mqtt_control_topic : List Nat
  mqtt_status_topic : List Nat
deriving DecidableEq, Repr

/-- The compiled-in defaults of the Settings struct: header 0xD2, device
name "MQTTSwitch", port 1883, every other field empty. -/
def defaultSettings : Settings :=
  ⟨SETTINGS_HEADER, [77, 81, 84, 84, 83, 119, 105, 116, 99, 104],
   [], [], [], 1883, [], [], [], [], []⟩

/-- The settings-load step of setup(): read the persisted record; if its
header byte matches SETTINGS_HEADER adopt it, otherwise keep the
compiled-in defaults. Total — startup proceeds either way. -/
def setupLoadSettings (persisted : Settings) : Settings :=
  if persisted.header = SETTINGS_HEADER then persisted else defaultSettings

/-- C9: if the persisted record's header byte does not match the magic
value the in-memory settings remain the compiled-in defaults (and the
load is a total function, so startup proceeds normally); if it matches,
the persisted record replaces the defaults. -/
theorem C9_header_check (persisted : Settings) :
    (persisted.header ≠ SETTINGS_HEADER →
      setupLoadSettings persisted = defaultSettings) ∧
    (persisted.header = SETTINGS_HEADER →
      setupLoadSettings persisted = persisted) := by
  constructor
  · intro h; simp [setupLoadSettings, h]
  · intro h; simp [setupLoadSettings, h]

/-- Witness for C9: a record with header 0 loads as the defaults; a
record with the magic header (the defaults themselves) loads as
itself. -/
theorem C9_header_check_witness :
    setupLoadSettings { defaultSettings with header := 0 }
      = defaultSettings ∧
    setupLoadSettings defaultSettings = defaultSettings :=
  ⟨(C9_header_check { defaultSettings with header := 0 }).1 (by decide),
   (C9_header_check defaultSettings).2 (by decide)⟩

/-- C isspace over the byte values it accepts: space and the control
characters 9 through 13. -/
def isspace (c : Nat) : Bool := c == 32 || (9 ≤ c && c ≤ 13)

/-- tokenSplit from the source, on a cursor into the remaining line
(`none` is the null pointer). Skip leading whitespace; if nothing
remains, return a null token (the cursor stays non-null, parked at the
terminator); otherwise return the token and park the cursor after the
whitespace byte that ended it, or null it at end of line. -/
def tokenSplit (ptr : Option (List Nat)) :
    Option (List Nat) × Option (List Nat) :=
  match ptr with
  | none => (none, none)
  | some s =>
    let s1 := s.dropWhile (fun c => isspace c)
    match s1 with
    | [] => (none, some [])
    | c :: rest =>
      let tok := (c :: rest).takeWhile (fun b => !isspace b)
      let after := (c :: rest).dropWhile (fun b => !isspace b)
      match after with
      | [] => (some tok, none)
      | _ :: rs => (some tok, some rs)

/-- C10 evidence: on an empty line and on an all-whitespace line the
first token extracted by tokenSplit is null — PollBluetoothCommand then
passes that null pointer to strcmp — while a line with any non-space
byte does yield a token. -/
theorem C10_empty_line_token :
    (tokenSplit (some [])).1 = none ∧
    (tokenSplit (some [32, 9, 32])).1 = none ∧
    (tokenSplit (some [104, 101, 108, 112])).1
      = some [104, 101, 108, 112] := by decide
